import Mathlib

/-!
Verification development for the resilient data-access core of the
volunteer-events mobile client: the network-first-with-cache-fallback
fetch strategy (src/services/api.ts and its caching collaborator), the
location-selection state machine and the time-window filter on the map
screen (src/pages/EventsMap.tsx), and the event-creation form handler
(src/pages/CreateEvent.tsx).

Coordinates (finite floating-point degrees in the source) are modelled as
rationals; a `dateTime` is modelled by the absolute instant the source
obtains from it via the JS `Date` constructor (an integer timestamp),
since every use of `dateTime` in the source goes through `new Date(...)`.
-/

/-- A map point, as in the `NewEventLocation` interface of EventsMap.tsx
(lines 31-34): a latitude and longitude pair. The source also uses this
same anonymous `\x7b latitude, longitude \x7d` shape for `Event.position`
and for the navigation payload handed to the creation form. -/
structure NewEventLocation where
  latitude : Rat
  longitude : Rat
  deriving DecidableEq, Repr

/-- The `Event` record from EventsMap.tsx lines 16-29. The source stores
`dateTime` as a string that every consumer immediately parses with
`new Date(...)`; we model the parsed absolute instant directly as an
integer timestamp. -/
structure Event where
  id : String
  name : String
  dateTime : Int
  description : String
  organizerId : String
  position : NewEventLocation
  volunteersNeeded : Int
  volunteersIds : List String
  imageUrl : Option String
  deriving DecidableEq, Repr

/-- Helper for concrete test events: an event whose only distinguishing
datum is its timestamp. -/
def mkEvent (t : Int) : Event :=
  { id := "e"
    name := "n"
    dateTime := t
    description := "d"
    organizerId := "o"
    position := { latitude := 0, longitude := 0 }
    volunteersNeeded := 0
    volunteersIds := []
    imageUrl := none }

/-- The persisted cache: one named slot per resource key, modelled as an
association list from key to stored value (AsyncStorage-style key-value
store with whole-value semantics per slot). -/
abbrev Cache (T : Type) := List (String × T)

/-- Read the slot named `key`, if present. -/
def cacheGet {T : Type} (key : String) : Cache T → Option T
  | [] => none
  | (k, v) :: rest => if k = key then some v else cacheGet key rest

/-- Overwrite (or create) the slot named `key` wholesale with `v`. -/
def cacheSet {T : Type} (key : String) (v : T) : Cache T → Cache T
  | [] => [(key, v)]
  | (k, w) :: rest =>
    if k = key then (key, v) :: rest else (k, w) :: cacheSet key v rest

/-- The terminal error of the resilient fetcher. -/
inductive FetchError where
  | NoDataAvailable
  deriving DecidableEq, Repr

/-- Outcome of the caller-supplied remote operation: it either resolves
with an authoritative value or rejects (a network failure). -/
inductive NetworkResult (T : Type) where
  | ok (value : T)
  | err
  deriving DecidableEq, Repr

/-- Modelled from the spec: `getFromNetworkFirst(key, request)` of
`src/services/caching.ts`, which is not under src/ (only its callers,
`getEvents` in api.ts line 30 and EventsMap.tsx, are). Per the spec: if
the remote operation resolves, persist the resolved value into cache slot
`key` (full overwrite) and resolve with that value; if it rejects, read
slot `key`; if present, resolve with the cached value; if absent, fail
with `NoDataAvailable`. The returned pair is the fetch outcome and the
cache state afterward. -/
def getFromNetworkFirst {T : Type} (key : String) (remote : NetworkResult T)
    (cache : Cache T) : Except FetchError T × Cache T :=
  match remote with
  | NetworkResult.ok v => (Except.ok v, cacheSet key v cache)
  | NetworkResult.err =>
    match cacheGet key cache with
    | some v => (Except.ok v, cache)
    | none => (Except.error FetchError.NoDataAvailable, cache)

/-- Modelled from the spec: `getFromCache(key)` of `src/services/caching.ts`,
which is not under src/ (EventsMap.tsx line 67 calls it in its cache-retry
branch). It reads cache slot `key` and rejects when the slot is absent;
`none` models the rejection. It never writes the cache. -/
def getFromCache {T : Type} (key : String) (cache : Cache T) : Option T :=
  cacheGet key cache

/-- `getEvents` from api.ts lines 28-35: invokes the network-first fetch on
key "events" with the remote list operation. The remote operation outcome
is a parameter, since the network is external. -/
def getEvents (remote : NetworkResult (List Event))
    (cache : Cache (List Event)) :
    Except FetchError (List Event) × Cache (List Event) :=
  getFromNetworkFirst "events" remote cache

/-- The time-window filter applied in `loadEvents` (EventsMap.tsx lines
56-60 and 70-74): keep exactly the events whose date is strictly after
`now`; the same `now`, read once per load, is used for every item. -/
def filterUpcoming (now : Int) (evts : List Event) : List Event :=
  evts.filter (fun e => decide (now < e.dateTime))

/-- `loadEvents` from EventsMap.tsx lines 50-85, with the wall-clock read
`new Date()` passed in as `now` and the network outcome as `remote`. Try
`api.getEvents`; on success filter and present the data; on failure retry
`getFromCache "events"` and filter what it holds; if that also fails,
present the empty list. Returns the resulting `events` state and the
cache state afterward. -/
def loadEvents (now : Int) (remote : NetworkResult (List Event))
    (cache : Cache (List Event)) : List Event × Cache (List Event) :=
  match getEvents remote cache with
  | (Except.ok data, c) => (filterUpcoming now data, c)
  | (Except.error _, c) =>
    match getFromCache "events" c with
    | some cachedEvents => (filterUpcoming now cachedEvents, c)
    | none => ([], c)

/-- Modelled from the spec: `api.createEvent(event)`, whose definition is
not under src/ (src/services/api.ts as provided does not define it; only
its caller CreateEvent.tsx line 61 is present). Per the spec it is a
plain remote write yielding `Promise<void>`, outside the fetch cache
path: one unretried write attempt, no cache interaction. `writeOk` is
the outcome of the remote write; the result is the void-or-error
outcome, the server event list, and the (untouched) cache afterward. -/
def createEvent (e : Event) (writeOk : Bool) (server : List Event)
    (cache : Cache (List Event)) :
    Except Unit Unit × List Event × Cache (List Event) :=
  if writeOk then (Except.ok (), server ++ [e], cache)
  else (Except.error (), server, cache)

/-- The map screen component state from EventsMap.tsx lines 41-44: the
presented event list, the loading flag, and the two creation-flow fields
`isCreatingEvent` and `newEventLocation` that realize the location
selection state machine (Idle when not creating; SelectingLocation when
creating with no location; LocationChosen when creating with one). -/
structure MapScreenState where
  events : List Event
  isLoading : Bool
  isCreatingEvent : Bool
  newEventLocation : Option NewEventLocation
  deriving DecidableEq, Repr

/-- The initial component state (useState initializers, EventsMap.tsx
lines 41-44): no events, loading, Idle. -/
def initialMapState : MapScreenState :=
  { events := [], isLoading := true, isCreatingEvent := false
    newEventLocation := none }

/-- `handleNavigateToCreateEvent` (EventsMap.tsx lines 101-104): start the
creation flow and clear any pending location. -/
def handleNavigateToCreateEvent (s : MapScreenState) : MapScreenState :=
  { s with isCreatingEvent := true, newEventLocation := none }

/-- `handleCancelLocationSelection` (EventsMap.tsx lines 106-109): leave
the creation flow and discard any pending location. -/
def handleCancelLocationSelection (s : MapScreenState) : MapScreenState :=
  { s with isCreatingEvent := false, newEventLocation := none }

/-- `handleMapPress` (EventsMap.tsx lines 111-117): a tap delivering
`coord` records the pending location only when the flow is active and no
location is pending yet; otherwise the state is unchanged. -/
def handleMapPress (coord : NewEventLocation) (s : MapScreenState) :
    MapScreenState :=
  if s.isCreatingEvent && s.newEventLocation.isNone then
    { s with newEventLocation := some coord }
  else s

/-- `handleLocationConfirmed` (EventsMap.tsx lines 119-128): when a
location is pending, hand exactly its latitude and longitude to the
creation form (the second component of the result is the navigation
payload) and reset the flow; when none is pending, do nothing and hand
off nothing. -/
def handleLocationConfirmed (s : MapScreenState) :
    MapScreenState × Option NewEventLocation :=
  match s.newEventLocation with
  | some loc =>
    ({ s with isCreatingEvent := false, newEventLocation := none },
      some { latitude := loc.latitude, longitude := loc.longitude })
  | none => (s, none)

/-- Guard of the camera-fit effect (EventsMap.tsx lines 87-99): the
`fitToCoordinates` camera move fires exactly when the event list is
nonempty, the map ref is mounted, and the screen is not in a creation
flow. -/
def shouldFitCamera (s : MapScreenState) (mapRefPresent : Bool) : Bool :=
  decide (0 < s.events.length) && mapRefPresent && !s.isCreatingEvent

/-- Concrete C3 scenario, step 1: start creation from Idle. -/
def c3Seq1 : MapScreenState := handleNavigateToCreateEvent initialMapState

/-- Concrete C3 scenario, step 2: first tap at (10, 20). -/
def c3Seq2 : MapScreenState := handleMapPress ⟨10, 20⟩ c3Seq1

/-- Concrete C3 scenario, step 3: second tap at (30, 40). -/
def c3Seq3 : MapScreenState := handleMapPress ⟨30, 40⟩ c3Seq2

/-- Concrete C3 scenario, step 4: cancel. -/
def c3Seq4 : MapScreenState := handleCancelLocationSelection c3Seq3

/-- Concrete C4 scenario: start creation from Idle, then tap at (5, 5). -/
def c4Seq2 : MapScreenState :=
  handleMapPress ⟨5, 5⟩ (handleNavigateToCreateEvent initialMapState)

/-- The authenticated-user record as consumed by CreateEvent.tsx line 50:
only its `id` is read. -/
structure UserRecord where
  id : String
  deriving DecidableEq, Repr

/-- The form fields of CreateEvent.tsx lines 16-20, all free-text
strings exactly as in the source. -/
structure CreateEventForm where
  eventName : String
  eventDescription : String
  volunteersNeeded : String
  eventDateTime : String
  eventImageUrl : String
  deriving DecidableEq, Repr

/-- Drop the leading whitespace characters of a character list. -/
def dropWhileWs : List Char → List Char
  | [] => []
  | c :: rest => if c.isWhitespace then dropWhileWs rest else c :: rest

/-- The JS string method `.trim()` used throughout handleSaveEvent
(CreateEvent.tsx lines 25-57): remove leading and trailing whitespace. -/
def jsTrim (s : String) : String :=
  String.mk ((dropWhileWs (dropWhileWs s.data).reverse).reverse)

/-- Accumulate a decimal digit run; fails on the first non-digit. -/
def digitsToNat (acc : Nat) : List Char → Option Nat
  | [] => some acc
  | c :: rest =>
    if c.isDigit then digitsToNat (acc * 10 + (c.toNat - 48)) rest else none

/-- The JS builtin `Number(string)` used by CreateEvent.tsx lines 33 and
55, on the decimal-integer-literal fragment the claims exercise: JS trims
the string, maps the empty trimmed string to 0, a possibly minus-signed
decimal integer literal to its value, and non-numeric text to NaN, which
is modelled as `none`. -/
def jsNumber (s : String) : Option Int :=
  match (jsTrim s).data with
  | [] => some 0
  | '-' :: rest =>
    if rest = [] then none
    else (digitsToNat 0 rest).map (fun n => -(n : Int))
  | l => (digitsToNat 0 l).map (fun n => (n : Int))

/-- Outcome of saving the creation form: a validation alert with the
source message, or the event record submitted to `api.createEvent`. -/
inductive SaveOutcome where
  | validationError (msg : String)
  | saved (e : Event)
  deriving DecidableEq, Repr

/-- `handleSaveEvent` from CreateEvent.tsx lines 23-75, up to the remote
submission: validate the four required fields, then build the new event.
`latitude` and `longitude` are the route params handed off by the map
screen, `user` is the authentication context value (its id, or the empty
string when absent, stamps `organizerId`), `newId` is the generated uuid,
and `dateParse` is the ambient `new Date(...)` parse giving the absolute
instant of the entered date string. -/
def handleSaveEvent (form : CreateEventForm) (latitude longitude : Rat)
    (user : Option UserRecord) (newId : String)
    (dateParse : String → Int) : SaveOutcome :=
  if jsTrim form.eventName = "" then
    SaveOutcome.validationError "Please enter an event name"
  else if jsTrim form.eventDescription = "" then
    SaveOutcome.validationError "Please enter an event description"
  else if jsTrim form.volunteersNeeded = "" ∨ jsNumber form.volunteersNeeded = none then
    SaveOutcome.validationError "Please enter a valid number of volunteers needed"
  else if jsTrim form.eventDateTime = "" then
    SaveOutcome.validationError "Please enter an event date and time"
  else
    SaveOutcome.saved
      { id := newId
        name := jsTrim form.eventName
        description := jsTrim form.eventDescription
        dateTime := dateParse form.eventDateTime
        organizerId := (user.map UserRecord.id).getD ""
        position := { latitude := latitude, longitude := longitude }
        volunteersNeeded := (jsNumber form.volunteersNeeded).getD 0
        volunteersIds := []
        imageUrl :=
          if jsTrim form.eventImageUrl = "" then none
          else some (jsTrim form.eventImageUrl) }

/-- A filled-in form whose volunteers field is the negative literal "-5";
every field passes the source validation of CreateEvent.tsx lines 25-40. -/
def c9Form : CreateEventForm :=
  { eventName := "Beach Cleanup"
    eventDescription := "Clean the beach"
    volunteersNeeded := "-5"
    eventDateTime := "2025-12-31 14:30"
    eventImageUrl := "" }

/-- The event record the save handler submits for `c9Form` with no
authenticated user, uuid "uuid-1" and a date parse returning 2000. -/
def c9Event : Event :=
  { id := "uuid-1"
    name := "Beach Cleanup"
    dateTime := 2000
    description := "Clean the beach"
    organizerId := ""
    position := { latitude := 1, longitude := 2 }
    volunteersNeeded := -5
    volunteersIds := []
    imageUrl := none }

/-- A valid form used by witness instantiations. -/
def w10Form : CreateEventForm :=
  { eventName := "Tree Planting"
    eventDescription := "Plant trees"
    volunteersNeeded := "3"
    eventDateTime := "2026-01-01 10:00"
    eventImageUrl := "http://img" }

/-- A one-slot cache holding one event under the "events" key. -/
def c1Cache : Cache (List Event) := [("events", [mkEvent 10])]

/-- A one-slot cache under a different key, used for the C5 witness. -/
def c5Cache : Cache (List Event) := [("events", [mkEvent 7])]

/-- Overwriting a cache slot makes a later read of that slot see exactly
the written value. -/
theorem cacheGet_cacheSet {T : Type} (key : String) (v : T) (c : Cache T) :
    cacheGet key (cacheSet key v c) = some v := by
  induction c with
  | nil => simp [cacheSet, cacheGet]
  | cons kv rest ih =>
    obtain ⟨k, w⟩ := kv
    by_cases h : k = key
    · simp [cacheSet, cacheGet, h]
    · simp [cacheSet, cacheGet, h, ih]

/-- Claim C1: when the remote operation rejects and a cache entry exists
for the key, the fetch resolves with the prior cached value (the caller
never observes the raw network failure); in particular a load of the
"events" key with a failing network and a cached event list resolves with
the cached list, which the screen then presents (time-filtered). -/
theorem C1_network_failure_serves_cached_value (now : Int)
    (cache : Cache (List Event)) (cached : List Event)
    (h : cacheGet "events" cache = some cached) :
    getFromNetworkFirst "events" NetworkResult.err cache
      = (Except.ok cached, cache) ∧
    (loadEvents now NetworkResult.err cache).1 = filterUpcoming now cached := by
  constructor
  · simp [getFromNetworkFirst, h]
  · simp [loadEvents, getEvents, getFromNetworkFirst, h]

/-- Witness for C1 at a concrete one-entry cache. -/
theorem C1_network_failure_serves_cached_value_witness :
    getFromNetworkFirst "events" NetworkResult.err c1Cache
      = (Except.ok [mkEvent 10], c1Cache) ∧
    (loadEvents 0 NetworkResult.err c1Cache).1 = filterUpcoming 0 [mkEvent 10] :=
  C1_network_failure_serves_cached_value 0 c1Cache [mkEvent 10] (by decide)

/-- Claim C2: when the remote operation rejects and no cache value exists
for the key, the fetch rejects with NoDataAvailable, and the screen then
presents the empty event list. -/
theorem C2_no_cache_rejects_no_data (now : Int) (cache : Cache (List Event))
    (h : cacheGet "events" cache = none) :
    getFromNetworkFirst "events" NetworkResult.err cache
      = (Except.error FetchError.NoDataAvailable, cache) ∧
    (loadEvents now NetworkResult.err cache).1 = [] := by
  constructor
  · simp [getFromNetworkFirst, h]
  · simp [loadEvents, getEvents, getFromNetworkFirst, getFromCache, h]

/-- Witness for C2 at the empty cache. -/
theorem C2_no_cache_rejects_no_data_witness :
    getFromNetworkFirst "events" NetworkResult.err ([] : Cache (List Event))
      = (Except.error FetchError.NoDataAvailable, []) ∧
    (loadEvents 0 NetworkResult.err ([] : Cache (List Event))).1 = [] :=
  C2_no_cache_rejects_no_data 0 [] (by decide)

/-- Claim C6: after every successful network fetch the cache slot for the
key equals exactly the fetched value (whole-value overwrite), and cache
writes occur only on network success: the fallback read path leaves the
cache exactly as it was. -/
theorem C6_cache_holds_last_fetched {T : Type} (key : String) (v : T)
    (cache : Cache T) :
    (getFromNetworkFirst key (NetworkResult.ok v) cache).2
      = cacheSet key v cache ∧
    cacheGet key (getFromNetworkFirst key (NetworkResult.ok v) cache).2
      = some v ∧
    (getFromNetworkFirst key NetworkResult.err cache).2 = cache := by
  refine ⟨rfl, ?_, ?_⟩
  · simpa [getFromNetworkFirst] using cacheGet_cacheSet key v cache
  · cases h : cacheGet key cache <;> simp [getFromNetworkFirst, h]

/-- Claim C3: a map tap received while a location is already pending is
ignored (the state, and in particular the stored location, is unchanged);
and the concrete run [start creation, tap(10,20), tap(30,40), cancel]
has pending location (10,20) just before the cancel, ignores the second
tap, and ends Idle with no pending location. -/
theorem C3_second_tap_ignored (s : MapScreenState) (p q : NewEventLocation)
    (h : s.newEventLocation = some p) :
    handleMapPress q s = s ∧
    c3Seq2.newEventLocation = some ⟨10, 20⟩ ∧
    c3Seq3 = c3Seq2 ∧
    c3Seq4.isCreatingEvent = false ∧
    c3Seq4.newEventLocation = none := by
  refine ⟨?_, by decide, by decide, by decide, by decide⟩
  simp [handleMapPress, h]

/-- Witness for C3 at a concrete state with a pending location. -/
theorem C3_second_tap_ignored_witness :
    handleMapPress ⟨2, 2⟩
        { events := [], isLoading := false, isCreatingEvent := true
          newEventLocation := some ⟨1, 1⟩ }
      = { events := [], isLoading := false, isCreatingEvent := true
          newEventLocation := some ⟨1, 1⟩ } ∧
    c3Seq2.newEventLocation = some ⟨10, 20⟩ ∧
    c3Seq3 = c3Seq2 ∧
    c3Seq4.isCreatingEvent = false ∧
    c3Seq4.newEventLocation = none :=
  C3_second_tap_ignored
    { events := [], isLoading := false, isCreatingEvent := true
      newEventLocation := some ⟨1, 1⟩ }
    ⟨1, 1⟩ ⟨2, 2⟩ rfl

/-- Claim C4: a confirm in state LocationChosen hands exactly the pending
latitude and longitude to the creation form and resets to Idle with no
pending location; and the concrete run [start creation, tap(5,5),
confirm] hands off exactly (5,5) and returns to Idle. -/
theorem C4_confirm_hands_off_pending (s : MapScreenState)
    (p : NewEventLocation) (h : s.newEventLocation = some p) :
    handleLocationConfirmed s
      = ({ s with isCreatingEvent := false, newEventLocation := none },
          some p) ∧
    handleLocationConfirmed c4Seq2
      = ({ c4Seq2 with isCreatingEvent := false, newEventLocation := none },
          some ⟨5, 5⟩) ∧
    (handleLocationConfirmed c4Seq2).1.isCreatingEvent = false ∧
    (handleLocationConfirmed c4Seq2).1.newEventLocation = none := by
  refine ⟨?_, by decide, by decide, by decide⟩
  simp [handleLocationConfirmed, h]

/-- Witness for C4 at a concrete state with pending location (9, 8). -/
theorem C4_confirm_hands_off_pending_witness :
    handleLocationConfirmed
        { events := [], isLoading := false, isCreatingEvent := true
          newEventLocation := some ⟨9, 8⟩ }
      = ({ events := [], isLoading := false, isCreatingEvent := false
           newEventLocation := none }, some ⟨9, 8⟩) ∧
    handleLocationConfirmed c4Seq2
      = ({ c4Seq2 with isCreatingEvent := false, newEventLocation := none },
          some ⟨5, 5⟩) ∧
    (handleLocationConfirmed c4Seq2).1.isCreatingEvent = false ∧
    (handleLocationConfirmed c4Seq2).1.newEventLocation = none :=
  C4_confirm_hands_off_pending
    { events := [], isLoading := false, isCreatingEvent := true
      newEventLocation := some ⟨9, 8⟩ }
    ⟨9, 8⟩ rfl

/-- Claim C8: the camera-fit behavior never fires while the machine is in
a non-Idle state: whenever the creation flow is active (SelectingLocation
or LocationChosen both have `isCreatingEvent` true), any update of the
event list still leaves the fit guard false, whatever the map ref is. -/
theorem C8_camera_fit_suppressed_while_creating (s : MapScreenState)
    (newEvents : List Event) (mapRefPresent : Bool)
    (h : s.isCreatingEvent = true) :
    shouldFitCamera { s with events := newEvents } mapRefPresent = false := by
  simp [shouldFitCamera, h]

/-- Witness for C8 mid-selection with a nonempty arriving event list. -/
theorem C8_camera_fit_suppressed_while_creating_witness :
    shouldFitCamera
        { c3Seq2 with events := [mkEvent 1, mkEvent 2] } true = false :=
  C8_camera_fit_suppressed_while_creating c3Seq2 [mkEvent 1, mkEvent 2]
    true (by decide)

/-- Claim C5: the time-window filter keeps exactly the events whose
instant is strictly after the single `now` read once per load; the same
filter with the same `now` is applied to network data and to cached data;
given events at t-1, t, t+1 with now = t only the t+1 event is retained;
and the retained records are the identical unmutated input records (the
membership equivalence below relates the very same `Event` values). -/
theorem C5_time_window_filter (now : Int) (evts v : List Event)
    (cache : Cache (List Event)) (cached : List Event)
    (hc : cacheGet "events" cache = some cached) :
    (∀ e, e ∈ filterUpcoming now evts ↔ e ∈ evts ∧ now < e.dateTime) ∧
    (loadEvents now (NetworkResult.ok v) cache).1 = filterUpcoming now v ∧
    (loadEvents now NetworkResult.err cache).1 = filterUpcoming now cached ∧
    (∀ t : Int,
      filterUpcoming t [mkEvent (t - 1), mkEvent t, mkEvent (t + 1)]
        = [mkEvent (t + 1)]) := by
  refine ⟨?_, ?_, ?_, ?_⟩
  · intro e
    simp [filterUpcoming, List.mem_filter]
  · simp [loadEvents, getEvents, getFromNetworkFirst]
  · simp [loadEvents, getEvents, getFromNetworkFirst, hc]
  · intro t
    have h1 : ¬ (t < t - 1) := by omega
    have h2 : ¬ (t < t) := by omega
    have h3 : t < t + 1 := by omega
    simp [filterUpcoming, List.filter, h1, h2, h3, mkEvent]

/-- Witness for C5: the network branch at a concrete load. -/
theorem C5_time_window_filter_witness :
    (loadEvents 0 (NetworkResult.ok [mkEvent 1]) c5Cache).1
      = filterUpcoming 0 [mkEvent 1] :=
  (C5_time_window_filter 0 [mkEvent 1] [mkEvent 1] c5Cache [mkEvent 7]
    (by decide)).2.1

/-- Claim C7: `createEvent` is a plain remote write yielding void, outside
the fetch cache path: for every created event the cache afterward is
untouched (so the "events" slot sees no optimistic insert), a successful
write appends exactly the one event to the server with a void result, and
a failed write is not retried and changes nothing. -/
theorem C7_create_event_plain_write (e : Event) (writeOk : Bool)
    (server : List Event) (cache : Cache (List Event)) :
    (createEvent e writeOk server cache).2.2 = cache ∧
    cacheGet "events" (createEvent e writeOk server cache).2.2
      = cacheGet "events" cache ∧
    (createEvent e true server cache).1 = Except.ok () ∧
    (createEvent e true server cache).2.1 = server ++ [e] ∧
    (createEvent e false server cache).2.1 = server := by
  refine ⟨?_, ?_, rfl, rfl, rfl⟩
  · cases writeOk <;> rfl
  · cases writeOk <;> rfl

/-- Claim C9, evaluated at its failing input: the volunteers field "-5"
passes the validation of handleSaveEvent (which only checks for an empty
or non-numeric entry) and the submitted event carries the negative
volunteersNeeded value -5, violating the data-model invariant
volunteersNeeded >= 0 that the claim states. -/
theorem C9_negative_volunteers_accepted :
    handleSaveEvent c9Form 1 2 none "uuid-1" (fun _ => 2000)
      = SaveOutcome.saved c9Event ∧
    c9Event.volunteersNeeded < 0 := by
  constructor
  · rfl
  · decide

/-- Claim C10: when no authenticated user is present, saving a form that
passes validation still proceeds: the handler submits an event and its
organizerId is the empty string. -/
theorem C10_missing_user_empty_organizer (form : CreateEventForm)
    (lat lng : Rat) (newId : String) (dateParse : String → Int)
    (h1 : jsTrim form.eventName ≠ "")
    (h2 : jsTrim form.eventDescription ≠ "")
    (h3 : jsTrim form.volunteersNeeded ≠ "")
    (h4 : jsNumber form.volunteersNeeded ≠ none)
    (h5 : jsTrim form.eventDateTime ≠ "") :
    ∃ ev : Event,
      handleSaveEvent form lat lng none newId dateParse
        = SaveOutcome.saved ev ∧ ev.organizerId = "" := by
  rw [handleSaveEvent, if_neg h1, if_neg h2,
    if_neg (not_or.mpr ⟨h3, h4⟩), if_neg h5]
  exact ⟨_, rfl, rfl⟩

/-- Witness for C10 at a concrete valid form with no user. -/
theorem C10_missing_user_empty_organizer_witness :
    ∃ ev : Event,
      handleSaveEvent w10Form 3 4 none "id10" (fun _ => 5)
        = SaveOutcome.saved ev ∧ ev.organizerId = "" :=
  C10_missing_user_empty_organizer w10Form 3 4 "id10" (fun _ => 5)
    (by decide) (by decide) (by decide) (by decide) (by decide)
